import Mathlib

/-!
Verification of the Bank-of-Anthos AI-agents risk-scoring and
economics-stress-testing core.

This file gives a shallow embedding, in Lean 4, of the two pure computational
classes of the repository:

* `ChallengerAgent` (src/boa-ai-agents/challenger-agent/app.py): baseline unit
  economics, four stress scenarios, constraint checking and the
  approve / counter-offer / reject decision.
* `RiskAnalyzer` (src/boa-ai-agents/risk-agent/app.py): feature extraction from
  a transaction stream, the 300-850 risk score, and the confidence blend.

Python floats are modelled as exact rationals (`ℚ`); Python `int(...)`
truncation is `pytrunc`; Python dictionaries with optional keys are records of
`Option` fields, and a `d['k']` access on a possibly-missing key is a fallible
operation in `Except String`.  Python's in-place mutation of the nested
`revenues` / `costs` dictionaries (shared by reference between the "copied"
scenario dicts, because `dict.copy()` is shallow) is modelled by explicit state
passing: `run_stress_tests` returns both the scenario outputs and the mutated
base scenario, and every returned scenario carries the final (post-mutation)
nested `revenues` / `costs` values, exactly as a caller of the Python code
observes them after the call.
-/

namespace BoA

/-- Python `int(x)` on a float/number: truncation toward zero. -/
def pytrunc (q : ℚ) : ℤ := if 0 ≤ q then ⌊q⌋ else ⌈q⌉

/-- Python division `a / b`, which raises `ZeroDivisionError` when `b == 0`. -/
def divPy (a b : ℚ) : Except String ℚ :=
  if b = 0 then .error "ZeroDivisionError" else .ok (a / b)

/-- Python string containment `pat in s`, on the underlying character lists. -/
def containsStr (s pat : String) : Bool :=
  s.toList.tails.any (fun t => pat.toList.isPrefixOf t)

/-! ## Challenger agent: data model -/

/-- The `terms_proposal` dictionary; keys may be absent. -/
structure TermsProposal where
  apr_rate : Option ℚ := none
  credit_limit : Option ℚ := none
  promotional_offers : Option (List String) := none
  adjustments : Option (List String) := none
deriving DecidableEq

/-- The `risk_data` dictionary (only `risk_score` is consumed). -/
structure RiskData where
  risk_score : Option ℚ := none
deriving DecidableEq

/-- The `spending_data` dictionary (only `total_spending` is consumed). -/
structure SpendingData where
  total_spending : Option ℚ := none
deriving DecidableEq

/-- The nested `revenues` dictionary of a scenario. -/
structure Revenues where
  interchange : ℚ
  interest : ℚ
  total : ℚ
deriving DecidableEq

/-- The nested `costs` dictionary of a scenario. -/
structure Costs where
  perks : ℚ
  expected_loss : ℚ
  funding : ℚ
  operations : ℚ
  total : ℚ
deriving DecidableEq

/-- Python `sum(costs.values())`: all five entries, the `total` key included. -/
def costsSumAll (c : Costs) : ℚ :=
  c.perks + c.expected_loss + c.funding + c.operations + c.total

/-- Python `sum([v for k, v in costs.items() if k != 'total'])`. -/
def costsSumNoTotal (c : Costs) : ℚ :=
  c.perks + c.expected_loss + c.funding + c.operations

/-- An economics scenario dict as built by `_build_base_scenario`. -/
structure Scenario where
  monthly_spend : ℚ
  avg_balance : ℚ
  revolving_balance : ℚ
  pd : ℚ
  revenues : Revenues
  costs : Costs
  profit_monthly : ℚ
  profit_annual : ℚ
  roe : ℚ
  loss_rate : ℚ
  capital_requirement : ℚ
deriving DecidableEq

/-- A constraint-violation dict appended by `_check_constraints`. -/
structure Violation where
  constraint : String
  required : ℚ
  actual : ℚ
  severity : String
deriving DecidableEq

/-! ## Challenger agent: operations -/

/-- `ChallengerAgent._extract_pd_from_risk`: risk-score-to-PD step function. -/
def extract_pd_from_risk (risk : RiskData) : ℚ :=
  let risk_score := risk.risk_score.getD 50
  if risk_score ≤ 20 then 2/100
  else if risk_score ≤ 40 then 4/100
  else if risk_score ≤ 60 then 7/100
  else if risk_score ≤ 80 then 12/100
  else 20/100

/-- `ChallengerAgent._build_base_scenario`: base case unit economics.
All divisions here are by nonzero constants or guarded by positivity tests,
so this function is total (the Python code cannot raise here). -/
def build_base_scenario (terms : TermsProposal) (risk : RiskData)
    (spending : SpendingData) : Scenario :=
  let credit_limit := terms.credit_limit.getD 15000
  let apr := terms.apr_rate.getD (1899/100) / 100
  let monthly_spend := spending.total_spending.getD 5000 / 12
  let pd := extract_pd_from_risk risk
  let avg_balance := credit_limit * (3/10)
  let revolving_balance := avg_balance * (5/10)
  let interchange_revenue := monthly_spend * (18/1000)
  let interest_revenue := revolving_balance * (apr / 12)
  let perk_eligible_spend := monthly_spend * (6/10)
  let perk_costs := perk_eligible_spend * (35/1000)
  let expected_loss := pd * (45/100) * avg_balance / 12
  let funding_cost := avg_balance * ((4/100) / 12)
  let ops_cost : ℚ := 15
  let total_revenue := interchange_revenue + interest_revenue
  let total_costs := perk_costs + expected_loss + funding_cost + ops_cost
  let profit := total_revenue - total_costs
  let capital_requirement := credit_limit * (8/100)
  let roe := if capital_requirement > 0 then profit * 12 / capital_requirement else 0
  let loss_rate := if avg_balance > 0 then expected_loss * 12 / avg_balance else 0
  { monthly_spend := monthly_spend
    avg_balance := avg_balance
    revolving_balance := revolving_balance
    pd := pd
    revenues := { interchange := interchange_revenue, interest := interest_revenue,
                  total := total_revenue }
    costs := { perks := perk_costs, expected_loss := expected_loss,
               funding := funding_cost, operations := ops_cost, total := total_costs }
    profit_monthly := profit
    profit_annual := profit * 12
    roe := roe
    loss_rate := loss_rate
    capital_requirement := capital_requirement }

/-- The four scenario dicts returned by `_run_stress_tests`, in insertion
order `spend_down_20pct`, `default_up_1_5x`, `cof_up_100bps`,
`perk_usage_maxed`. -/
structure StressResults where
  spend_down_20pct : Scenario
  default_up_1_5x : Scenario
  cof_up_100bps : Scenario
  perk_usage_maxed : Scenario
deriving DecidableEq

/-- `ChallengerAgent._run_stress_tests`.

The Python code takes shallow copies of `base` (`base.copy()`), so the nested
`revenues` and `costs` dicts are shared by reference between `base` and all
four scenario dicts, and every `*=` / key assignment on them mutates the one
shared object.  We model this by threading the shared `revenues` / `costs`
state through the four scenarios in program order and returning, alongside the
scenario outputs, the mutated base scenario.  Top-level scalar keys of each
scenario dict are genuine per-scenario snapshots (a shallow copy does copy
them).  The `roe` / `loss_rate` divisions are unguarded in Python and raise
`ZeroDivisionError` when the divisor is zero, hence the `Except`. -/
def run_stress_tests (base : Scenario) : Except String (StressResults × Scenario) := do
  -- Scenario 1: spend down 20%
  let rev1 : Revenues := { base.revenues with interchange := base.revenues.interchange * (8/10) }
  let costs1 : Costs := { base.costs with perks := base.costs.perks * (8/10) }
  let s1_spend := base.monthly_spend * (8/10)
  let s1_profit := rev1.interchange + rev1.interest - costsSumAll costs1
  let s1_roe ← divPy (s1_profit * 12) base.capital_requirement
  -- Scenario 2: default probability up 1.5x
  let s2_pd := base.pd * (15/10)
  let costs2a : Costs := { costs1 with expected_loss := costs1.expected_loss * (15/10) }
  let costs2 : Costs := { costs2a with total := costsSumNoTotal costs2a }
  let s2_profit := rev1.total - costs2.total
  let s2_roe ← divPy (s2_profit * 12) base.capital_requirement
  let s2_loss ← divPy (costs2.expected_loss * 12) base.avg_balance
  -- Scenario 3: cost of funds up 100 bps
  let costs3a : Costs := { costs2 with funding := base.avg_balance * ((4/100 + 1/100) / 12) }
  let costs3 : Costs := { costs3a with total := costsSumNoTotal costs3a }
  let s3_profit := rev1.total - costs3.total
  let s3_roe ← divPy (s3_profit * 12) base.capital_requirement
  -- Scenario 4: perk usage maxed (90% of spend perk-eligible)
  let costs4a : Costs := { costs3 with perks := base.monthly_spend * (9/10) * (35/1000) }
  let costs4 : Costs := { costs4a with total := costsSumNoTotal costs4a }
  let s4_profit := rev1.total - costs4.total
  let s4_roe ← divPy (s4_profit * 12) base.capital_requirement
  -- All five dicts share the final nested revenues/costs objects.
  let sc1 : Scenario :=
    { base with monthly_spend := s1_spend, profit_monthly := s1_profit, roe := s1_roe, revenues := rev1, costs := costs4 }
  let sc2 : Scenario :=
    { base with pd := s2_pd, profit_monthly := s2_profit, roe := s2_roe, loss_rate := s2_loss, revenues := rev1, costs := costs4 }
  let sc3 : Scenario :=
    { base with profit_monthly := s3_profit, roe := s3_roe, revenues := rev1, costs := costs4 }
  let sc4 : Scenario :=
    { base with profit_monthly := s4_profit, roe := s4_roe, revenues := rev1, costs := costs4 }
  let mutatedBase : Scenario := { base with revenues := rev1, costs := costs4 }
  pure ({ spend_down_20pct := sc1, default_up_1_5x := sc2, cof_up_100bps := sc3, perk_usage_maxed := sc4 }, mutatedBase)

/-- The `min_roe` check of `_check_constraints` (high severity). -/
def roeViolations (base : Scenario) : List Violation :=
  if base.roe < 15/100 then
    [{ constraint := "min_roe", required := 15/100, actual := base.roe, severity := "high" }]
  else []

/-- The `max_loss_rate` check of `_check_constraints` (high severity). -/
def lossRateViolations (base : Scenario) : List Violation :=
  if base.loss_rate > 8/100 then
    [{ constraint := "max_loss_rate", required := 8/100, actual := base.loss_rate, severity := "high" }]
  else []

/-- The `max_perk_budget` check of `_check_constraints` (medium severity). -/
def perkBudgetViolations (base : Scenario) : List Violation :=
  if base.costs.perks > 50 then
    [{ constraint := "max_perk_budget", required := 50, actual := base.costs.perks, severity := "medium" }]
  else []

/-- One iteration of the stress-ROE loop of `_check_constraints`: a medium
violation when the scenario's ROE is below 80% of the minimum ROE. -/
def stressRoeViolation (name : String) (sc : Scenario) : List Violation :=
  if sc.roe < 15/100 * (8/10) then
    [{ constraint := "stress_roe_" ++ name, required := 15/100 * (8/10),
       actual := sc.roe, severity := "medium" }]
  else []

/-- The per-scenario stress-ROE checks of `_check_constraints` (medium
severity), iterating `stress.items()` in insertion order. -/
def stressRoeViolations (stress : StressResults) : List Violation :=
  stressRoeViolation "spend_down_20pct" stress.spend_down_20pct
    ++ stressRoeViolation "default_up_1_5x" stress.default_up_1_5x
    ++ stressRoeViolation "cof_up_100bps" stress.cof_up_100bps
    ++ stressRoeViolation "perk_usage_maxed" stress.perk_usage_maxed

/-- `ChallengerAgent._check_constraints`. -/
def check_constraints (base : Scenario) (stress : StressResults) : List Violation :=
  roeViolations base ++ lossRateViolations base ++ perkBudgetViolations base
    ++ stressRoeViolations stress

/-- The `expected_improvement` dict of `_estimate_improvement`. -/
structure Improvement where
  apr_increase_bps : ℚ
  credit_limit_change : ℚ
  estimated_roe_improvement : ℚ
  estimated_profit_improvement_monthly : ℚ
deriving DecidableEq

/-- `ChallengerAgent._estimate_improvement`. -/
def estimate_improvement (counter original : TermsProposal) : Improvement :=
  let apr_improvement := (counter.apr_rate.getD 0 - original.apr_rate.getD 0) * 100
  let limit_change := counter.credit_limit.getD 0 - original.credit_limit.getD 0
  { apr_increase_bps := apr_improvement
    credit_limit_change := limit_change
    estimated_roe_improvement := apr_improvement * (2/1000)
    estimated_profit_improvement_monthly := apr_improvement * 5 }

/-- Fallible Python dict access `d['key']` on an optional field. -/
def dictGetQ (o : Option ℚ) (key : String) : Except String ℚ :=
  match o with
  | some v => .ok v
  | none => .error ("KeyError: " ++ key)

/-- The APR step of `_generate_counter_offer`: when any ROE-related violation
is present, raise APR by `min(200, max(50, n_roe_violations*100))` bps, capped
at the 29.99 policy max; `original['apr_rate']` raises `KeyError` if absent. -/
def counterAprStep (original : TermsProposal) (roeN : ℕ) :
    Except String (TermsProposal × List String) :=
  if roeN > 0 then do
    let aprInc : ℤ := min 200 (max 50 ((roeN : ℤ) * 100))
    let apr ← dictGetQ original.apr_rate "apr_rate"
    pure ({ original with apr_rate := some (min (2999/100) (apr + (aprInc : ℚ) / 100)) },
          ["APR increased by " ++ toString aprInc ++ " bps to improve ROE"])
  else pure (original, [])

/-- The credit-limit step of `_generate_counter_offer`: when any loss-related
violation is present, cut the limit by `min(5000, max(1000, int(limit*0.2)))`,
floored at 5000; `original['credit_limit']` raises `KeyError` if absent. -/
def counterLimitStep (counter original : TermsProposal) (adjust : List String)
    (lossN : ℕ) : Except String (TermsProposal × List String) :=
  if lossN > 0 then do
    let lim ← dictGetQ original.credit_limit "credit_limit"
    let limit_reduction : ℤ := min 5000 (max 1000 (pytrunc (lim * (2/10))))
    pure ({ counter with credit_limit := some (max 5000 (lim - (limit_reduction : ℚ))) },
          adjust ++ ["Credit limit reduced by $" ++ toString limit_reduction
                     ++ " to manage loss exposure"])
  else pure (counter, adjust)

/-- The perk step of `_generate_counter_offer`: when any perk-related violation
is present, truncate `promotional_offers` (if that key exists) to one entry. -/
def counterPerkStep (counter : TermsProposal) (adjust : List String) (perkN : ℕ) :
    TermsProposal × List String :=
  if perkN > 0 then
    (match counter.promotional_offers with
     | some offers => { counter with promotional_offers := some (offers.take 1) }
     | none => counter,
     adjust ++ ["Reduced promotional benefits to control perk costs"])
  else (counter, adjust)

/-- `ChallengerAgent._generate_counter_offer`. -/
def generate_counter_offer (original : TermsProposal) (violations : List Violation)
    (_base : Scenario) : Except String TermsProposal := do
  let roeN := (violations.filter (fun v => containsStr v.constraint "roe")).length
  let lossN := (violations.filter (fun v => containsStr v.constraint "loss")).length
  let perkN := (violations.filter (fun v => containsStr v.constraint "perk")).length
  let (c1, a1) ← counterAprStep original roeN
  let (c2, a2) ← counterLimitStep c1 original a1 lossN
  let (c3, a3) := counterPerkStep c2 a2 perkN
  pure { c3 with adjustments := some a3 }

/-- A decision dict; keys not set by the branch taken are absent. -/
structure Decision where
  action : String
  reason : String
  profit_margin : Option ℚ := none
  roe : Option ℚ := none
  violations : Option (List Violation) := none
  counter_proposal : Option TermsProposal := none
  expected_improvement : Option Improvement := none
deriving DecidableEq

/-- `ChallengerAgent._make_decision`: approve as-is, counter-offer, or reject. -/
def make_decision (base : Scenario) (_stress : StressResults)
    (violations : List Violation) (original_terms : TermsProposal) :
    Except String Decision :=
  let high := violations.filter (fun v => v.severity = "high")
  if high.length = 0 ∧ violations.length ≤ 1 then
    .ok { action := "approve_as_is"
          reason := "Proposal meets all key constraints and stress tests"
          profit_margin := some base.profit_monthly
          roe := some base.roe }
  else if high.length ≤ 2 then do
    let counter ← generate_counter_offer original_terms violations base
    pure { action := "counter_offer"
           reason := "Adjustments needed due to " ++ toString violations.length
                     ++ " constraint violations"
           violations := some violations
           counter_proposal := some counter
           expected_improvement := some (estimate_improvement counter original_terms) }
  else
    .ok { action := "reject"
          reason := "Too many constraint violations (" ++ toString high.length
                    ++ " high severity)"
          violations := some violations }

/-- The result dict of `analyze_proposal` (the wall-clock
`analysis_timestamp` field is omitted from the model). -/
structure ChallengerResult where
  agent : String := "challenger-agent"
  original_proposal : Option TermsProposal := none
  base_economics : Option Scenario := none
  stress_test_results : Option StressResults := none
  constraint_violations : Option (List Violation) := none
  decision : Decision
  confidence : Option ℚ := none
  error : Option String := none
deriving DecidableEq

/-- The body of the `try` block of `ChallengerAgent.analyze_proposal`: the
fallible analysis pipeline. -/
def analyze_proposal_core (terms : TermsProposal) (risk : RiskData)
    (spending : SpendingData) : Except String ChallengerResult := do
  let base := build_base_scenario terms risk spending
  let (stress, mutatedBase) ← run_stress_tests base
  let violations := check_constraints mutatedBase stress
  let decision ← make_decision mutatedBase stress violations terms
  pure { original_proposal := some terms
         base_economics := some mutatedBase
         stress_test_results := some stress
         constraint_violations := some violations
         decision := decision
         confidence := some 95 }

/-- `ChallengerAgent.analyze_proposal`: the top-level `try/except` converts any
internal exception into a well-formed reject result. -/
def analyze_proposal (terms : TermsProposal) (risk : RiskData)
    (spending : SpendingData) : ChallengerResult :=
  match analyze_proposal_core terms risk spending with
  | .ok res => res
  | .error e => { decision := { action := "reject", reason := "Analysis failed" }
                  error := some e }

/-! ## Risk agent: data model -/

/-- A transaction record as consumed by `RiskAnalyzer` (`date` an ISO-8601
timestamp string, `amount` signed, `description` free text). -/
structure Tx where
  date : String
  amount : ℚ
  description : String
deriving DecidableEq

/-- The `FinancialFeatures` dataclass. -/
structure FinancialFeatures where
  monthly_net_inflow : ℚ
  income_stability : ℚ
  avg_balance : ℚ
  min_balance : ℚ
  nsf_events : ℕ
  expense_ratio : ℚ
  payment_consistency : ℚ
  category_spending : List (String × ℚ)
deriving DecidableEq

/-! ## Risk agent: list and string helpers mirroring the Python primitives -/

/-- `statistics.mean` (callers guard against the empty list). -/
def listMean (xs : List ℚ) : ℚ := xs.sum / (xs.length : ℚ)

/-- Python `min(xs)` on a nonempty list (0 on the empty list, never used). -/
def listMin : List ℚ → ℚ
  | [] => 0
  | x :: xs => xs.foldl min x

/-- Python string `<=` (lexicographic by code point), on character lists. -/
def charListLe : List Char → List Char → Bool
  | [], _ => true
  | _ :: _, [] => false
  | a :: as, b :: bs => if a < b then true else if b < a then false else charListLe as bs

/-- Insert into a date-sorted transaction list (before the first element not
smaller, so that the overall sort is stable, as Python's `sorted` is). -/
def insertByDate (tx : Tx) : List Tx → List Tx
  | [] => [tx]
  | y :: ys => if charListLe tx.date.toList y.date.toList then tx :: y :: ys
               else y :: insertByDate tx ys

/-- `sorted(transactions, key=lambda x: x['date'])`. -/
def sortByDate : List Tx → List Tx
  | [] => []
  | x :: xs => insertByDate x (sortByDate xs)

/-- Python `s.upper()` (over the character list). -/
def upperStr (s : String) : String := String.mk (s.toList.map Char.toUpper)

/-- Add `v` to the entry of insertion-ordered dict `m` at key `k`, inserting
`(k, v)` at the end when the key is new (models `d[k] = d.get(k, 0) + v` and
the explicit `if k not in d: d[k] = 0` pattern). -/
def bumpKey (m : List (String × ℚ)) (k : String) (v : ℚ) : List (String × ℚ) :=
  match m with
  | [] => [(k, v)]
  | (k', v') :: rest => if k' = k then (k', v' + v) :: rest else (k', v') :: bumpKey rest k v

/-- Set key `k` of insertion-ordered dict `m` to `v` (models `d[k] = v`). -/
def setKey (m : List (String × ℚ)) (k : String) (v : ℚ) : List (String × ℚ) :=
  match m with
  | [] => [(k, v)]
  | (k', v') :: rest => if k' = k then (k', v) :: rest else (k', v') :: setKey rest k v

/-- `d.get(k, 0)` on an insertion-ordered dict. -/
def getKeyD (m : List (String × ℚ)) (k : String) : ℚ :=
  match m with
  | [] => 0
  | (k', v') :: rest => if k' = k then v' else getKeyD rest k

/-- Append `v` to the group of key `k` (models the group-by-description
accumulation `by_description[desc].append(...)`). -/
def groupAppend (m : List (String × List ℚ)) (k : String) (v : ℚ) :
    List (String × List ℚ) :=
  match m with
  | [] => [(k, [v])]
  | (k', vs) :: rest => if k' = k then (k', vs ++ [v]) :: rest
                        else (k', vs) :: groupAppend rest k v

/-! ## Risk agent: feature extraction -/

/-- `date.strftime('%Y-%m')` after `datetime.fromisoformat`: for an ISO-8601
`YYYY-MM-DD...` string this is its first seven characters. -/
def monthKey (tx : Tx) : String := String.mk (tx.date.toList.take 7)

/-- `RiskAnalyzer._calculate_monthly_inflows`: net inflow per month, in first-
appearance order of the month keys. -/
def monthlyInflows (txs : List Tx) : List ℚ :=
  (txs.foldl (fun m tx => bumpKey m (monthKey tx) tx.amount) []).map Prod.snd

/-- `RiskAnalyzer._estimate_daily_balances`: work backwards from the current
balance over the last 90 transactions. -/
def estimateDailyBalances (txs : List Tx) (current_balance : ℚ) : List ℚ :=
  let last90 := txs.drop (txs.length - 90)
  (last90.reverse.foldl (fun acc tx => (acc.1 - tx.amount, acc.2 ++ [acc.1 - tx.amount]))
    (current_balance, [current_balance])).2

/-- `RiskAnalyzer._identify_recurring_expenses`: group negative-amount
transactions by exact description; any group of size ≥ 3 contributes its mean
absolute amount to the `housing` / `utilities` / `phone` bucket selected by
keyword, with `utilities` accumulating across matches. -/
def identifyRecurringExpenses (txs : List Tx) : List (String × ℚ) :=
  let expenseTxs := txs.filter (fun tx => tx.amount < 0)
  let byDescription := expenseTxs.foldl (fun m tx => groupAppend m tx.description |tx.amount|) []
  byDescription.foldl
    (fun pats p =>
      if p.2.length ≥ 3 then
        let avg_amount := listMean p.2
        let u := upperStr p.1
        if containsStr u "RENT" || containsStr u "MORTGAGE" then
          setKey pats "housing" avg_amount
        else if containsStr u "ELECTRIC" || containsStr u "GAS" || containsStr u "WATER"
            || containsStr u "UTILITIES" then
          setKey pats "utilities" (getKeyD pats "utilities" + avg_amount)
        else if containsStr u "PHONE" || containsStr u "WIRELESS" then
          setKey pats "phone" avg_amount
        else pats
      else pats)
    []

/-- `RiskAnalyzer._categorize_spending`: keyword bucketing of expenses. -/
def categorizeSpending (txs : List Tx) : List (String × ℚ) :=
  let initial : List (String × ℚ) :=
    [("dining", 0), ("grocery", 0), ("gas", 0), ("shopping", 0),
     ("utilities", 0), ("entertainment", 0), ("other", 0)]
  txs.foldl
    (fun cats tx =>
      if tx.amount < 0 then
        let amount := |tx.amount|
        let desc := upperStr tx.description
        let bucket :=
          if ["RESTAURANT", "CHIPOTLE", "STARBUCKS", "CAFE"].any (containsStr desc) then
            "dining"
          else if ["SAFEWAY", "WHOLE FOODS", "GROCERY", "MARKET"].any (containsStr desc) then
            "grocery"
          else if ["SHELL", "CHEVRON", "GAS", "FUEL"].any (containsStr desc) then "gas"
          else if ["AMAZON", "TARGET", "WALMART"].any (containsStr desc) then "shopping"
          else if ["ELECTRIC", "GAS COMPANY", "WATER", "PHONE"].any (containsStr desc) then
            "utilities"
          else "other"
        bumpKey cats bucket amount
      else cats)
    initial

/-- `RiskAnalyzer._default_features`: the fallback constant for an empty
transaction history. -/
def default_features : FinancialFeatures :=
  { monthly_net_inflow := 3200
    income_stability := 85/100
    avg_balance := 1250
    min_balance := 200
    nsf_events := 0
    expense_ratio := 75/100
    payment_consistency := 90/100
    category_spending := [("dining", 180), ("grocery", 320), ("utilities", 200),
                          ("gas", 120), ("shopping", 150)] }

/-- The `avg_monthly_inflow` local of `extract_features`. -/
def avgMonthlyInflowOf (txs : List Tx) : ℚ :=
  let inflows := monthlyInflows (sortByDate txs)
  if inflows = [] then 0 else listMean inflows

/-- The `inflow_volatility` local of `extract_features`.  `statistics.stdev`
(an irrational square root in general) is the one primitive kept abstract: it
is passed in as `sd`, and is only consulted when there are at least two
monthly buckets. -/
def inflowVolatilityOf (sd : List ℚ → ℚ) (txs : List Tx) : ℚ :=
  let inflows := monthlyInflows (sortByDate txs)
  if inflows.length > 1 then sd inflows else 0

/-- The `income_stability` local of `extract_features`. -/
def incomeStabilityOf (sd : List ℚ → ℚ) (txs : List Tx) : ℚ :=
  max 0 (1 - inflowVolatilityOf sd txs / max (avgMonthlyInflowOf txs) 1)

/-- The `balance_history` local of `extract_features`. -/
def balanceHistoryOf (txs : List Tx) (current_balance : ℚ) : List ℚ :=
  estimateDailyBalances (sortByDate txs) current_balance

/-- The recurring-expense dict of `extract_features` (also recomputed by
`_calculate_payment_consistency`). -/
def recurringOf (txs : List Tx) : List (String × ℚ) :=
  identifyRecurringExpenses (sortByDate txs)

/-- The `total_monthly_expenses` local of `extract_features`. -/
def totalMonthlyExpensesOf (txs : List Tx) : ℚ :=
  ((recurringOf txs).map Prod.snd).sum

/-- The `expense_ratio` local of `extract_features`. -/
def expenseRatioOf (txs : List Tx) : ℚ :=
  if avgMonthlyInflowOf txs > 0 then
    totalMonthlyExpensesOf txs / max (avgMonthlyInflowOf txs) 1
  else 1

/-- `RiskAnalyzer._calculate_payment_consistency`. -/
def paymentConsistencyOf (txs : List Tx) : ℚ :=
  if recurringOf txs = [] then 8/10 else 9/10

/-- `RiskAnalyzer.extract_features`.  `balanceData` models the balance dict
(`balance_data.get('balance', 0)`); `sd` abstracts `statistics.stdev`. -/
def extract_features (sd : List ℚ → ℚ) (txs : List Tx) (balanceData : Option ℚ) :
    FinancialFeatures :=
  if txs = [] then default_features
  else
    let current_balance := balanceData.getD 0
    let history := balanceHistoryOf txs current_balance
    { monthly_net_inflow := avgMonthlyInflowOf txs
      income_stability := incomeStabilityOf sd txs
      avg_balance := if history = [] then current_balance else listMean history
      min_balance := if history = [] then current_balance else listMin history
      nsf_events := (history.filter (fun b => b < 0)).length
      expense_ratio := expenseRatioOf txs
      payment_consistency := paymentConsistencyOf txs
      category_spending := categorizeSpending (sortByDate txs) }

/-! ## Risk agent: scoring -/

/-- The `income_stability` sub-score of `calculate_risk_score`. -/
def incomeStabilityScore (f : FinancialFeatures) : ℚ :=
  min 850 (f.income_stability * 850)

/-- The `cash_flow` sub-score of `calculate_risk_score`. -/
def cashFlowScore (f : FinancialFeatures) : ℚ :=
  if f.monthly_net_inflow > 0 then min 850 ((f.monthly_net_inflow / 2000) * 400 + 450)
  else 300

/-- The `balance_management` sub-score of `calculate_risk_score`: banded by
average balance, minus 50 per NSF event, floored at 300. -/
def balanceManagementScore (f : FinancialFeatures) : ℚ :=
  let band : ℚ :=
    if f.avg_balance > 1000 then 750
    else if f.avg_balance > 500 then 650
    else if f.avg_balance > 100 then 550
    else 400
  max 300 (band - (f.nsf_events : ℚ) * 50)

/-- The `payment_consistency` sub-score of `calculate_risk_score`. -/
def paymentConsistencyScore (f : FinancialFeatures) : ℚ :=
  f.payment_consistency * 850

/-- The `expense_ratio` sub-score of `calculate_risk_score`. -/
def expenseRatioScore (f : FinancialFeatures) : ℚ :=
  if f.expense_ratio < 3/10 then 800
  else if f.expense_ratio < 5/10 then 700
  else if f.expense_ratio < 8/10 then 600
  else 400

/-- `RiskAnalyzer.calculate_risk_score`: weighted average of the five
sub-scores, truncated to an integer by Python's `int(...)`. -/
def calculate_risk_score (f : FinancialFeatures) : ℤ :=
  pytrunc (incomeStabilityScore f * (25/100) + cashFlowScore f * (20/100)
    + balanceManagementScore f * (20/100) + paymentConsistencyScore f * (15/100)
    + expenseRatioScore f * (20/100))

/-! ## Risk agent: confidence blend of `analyze_risk` -/

/-- The `balance_volatility` risk factor of `analyze_risk`. -/
def balanceVolatility (f : FinancialFeatures) : ℚ :=
  1 - f.min_balance / max f.avg_balance 1

/-- The confidence blend of `analyze_risk` (lines computing `confidence`):
`min(0.95, 0.3*income_stability + 0.25*(1-balance_volatility)
+ 0.25*(1-min(1,expense_ratio)) + 0.2*payment_consistency)`. -/
def confidenceOf (f : FinancialFeatures) : ℚ :=
  min (95/100)
    (f.income_stability * (3/10) + (1 - balanceVolatility f) * (25/100)
      + (1 - min 1 f.expense_ratio) * (25/100) + f.payment_consistency * (2/10))

/-- The confidence produced by `analyze_risk` as a function of the transaction
history and balance input (the feature-extraction pipeline composed with the
confidence blend). -/
def analyzeRiskConfidence (sd : List ℚ → ℚ) (txs : List Tx)
    (balanceData : Option ℚ) : ℚ :=
  confidenceOf (extract_features sd txs balanceData)

/-! ## The scenario-9 example inputs and their evaluated pipeline -/

/-- `terms_proposal={apr_rate:18.99, credit_limit:15000}`. -/
def terms9 : TermsProposal := { apr_rate := some (1899/100), credit_limit := some 15000 }

/-- `risk_data={risk_score:50}`. -/
def risk9 : RiskData := { risk_score := some 50 }

/-- `spending_data={total_spending:60000}`. -/
def spend9 : SpendingData := { total_spending := some 60000 }

/-- The base scenario built from the scenario-9 example inputs. -/
def base9 : Scenario := build_base_scenario terms9 risk9 spend9

/-- The literal value of `base9`. -/
def base9lit : Scenario :=
  { monthly_spend := 5000
    avg_balance := 4500
    revolving_balance := 2250
    pd := 7/100
    revenues := { interchange := 90, interest := 5697/160, total := 20097/160 }
    costs := { perks := 105, expected_loss := 189/16, funding := 15, operations := 15,
               total := 2349/16 }
    profit_monthly := -3393/160
    profit_annual := -10179/40
    roe := -3393/16000
    loss_rate := 63/2000
    capital_requirement := 1200 }

theorem base9_eval : base9 = base9lit := by
  norm_num [base9, base9lit, build_base_scenario, extract_pd_from_risk, terms9, risk9,
    spend9, Scenario.mk.injEq, Revenues.mk.injEq, Costs.mk.injEq]

/-- The shared nested revenues dict after a run of the stress tests on
`base9` (the spend scenario scaled interchange in place). -/
def rev9mut : Revenues := { interchange := 72, interest := 5697/160, total := 20097/160 }

/-- The shared nested costs dict after a run of the stress tests on `base9`
(all four scenarios' mutations compounded). -/
def costs9mut : Costs :=
  { perks := 315/2, expected_loss := 567/32, funding := 75/4, operations := 15,
    total := 6687/32 }

/-- The literal stress-test outputs on `base9`. -/
def stress9lit : StressResults :=
  { spend_down_20pct :=
      { base9lit with monthly_spend := 4000, profit_monthly := -26403/160,
                      roe := -26403/16000, revenues := rev9mut, costs := costs9mut }
    default_up_1_5x :=
      { base9lit with pd := 21/200, profit_monthly := -489/80, roe := -489/8000,
                      loss_rate := 189/4000, revenues := rev9mut, costs := costs9mut }
    cof_up_100bps :=
      { base9lit with profit_monthly := -789/80, roe := -789/8000,
                      revenues := rev9mut, costs := costs9mut }
    perk_usage_maxed :=
      { base9lit with profit_monthly := -6669/80, roe := -6669/8000,
                      revenues := rev9mut, costs := costs9mut } }

/-- The literal mutated base after a run of the stress tests on `base9`. -/
def base9mut : Scenario := { base9lit with revenues := rev9mut, costs := costs9mut }

theorem run_stress_tests9_eval :
    run_stress_tests base9lit = .ok (stress9lit, base9mut) := by
  norm_num [run_stress_tests, divPy, costsSumAll, costsSumNoTotal, base9lit, stress9lit,
    base9mut, rev9mut, costs9mut, bind, Except.bind, pure, Except.pure,
    StressResults.mk.injEq, Scenario.mk.injEq, Revenues.mk.injEq, Costs.mk.injEq,
    Prod.ext_iff]

/-- The nested revenues dict after a second run of the stress tests (on the
already-mutated `base9mut`): the interchange is scaled by 0.8 again. -/
def rev9mut2 : Revenues := { interchange := 288/5, interest := 5697/160, total := 20097/160 }

/-- The nested costs dict after a second run of the stress tests. -/
def costs9mut2 : Costs :=
  { perks := 315/2, expected_loss := 1701/64, funding := 75/4, operations := 15,
    total := 13941/64 }

/-- The literal stress-test outputs of a second run, on `base9mut`. -/
def stress9lit2 : StressResults :=
  { spend_down_20pct :=
      { base9mut with monthly_spend := 4000, profit_monthly := -46917/160,
                      roe := -46917/16000, revenues := rev9mut2, costs := costs9mut2 }
    default_up_1_5x :=
      { base9mut with pd := 21/200, profit_monthly := -19431/320, roe := -19431/32000,
                      loss_rate := 567/8000, revenues := rev9mut2, costs := costs9mut2 }
    cof_up_100bps :=
      { base9mut with profit_monthly := -19431/320, roe := -19431/32000,
                      revenues := rev9mut2, costs := costs9mut2 }
    perk_usage_maxed :=
      { base9mut with profit_monthly := -29511/320, roe := -29511/32000,
                      revenues := rev9mut2, costs := costs9mut2 } }

/-- The mutated base after the second run. -/
def base9mut2 : Scenario := { base9mut with revenues := rev9mut2, costs := costs9mut2 }

theorem run_stress_tests9_eval2 :
    run_stress_tests base9mut = .ok (stress9lit2, base9mut2) := by
  norm_num [run_stress_tests, divPy, costsSumAll, costsSumNoTotal, base9lit, stress9lit2,
    base9mut, base9mut2, rev9mut, costs9mut, rev9mut2, costs9mut2, bind, Except.bind,
    pure, Except.pure, StressResults.mk.injEq, Scenario.mk.injEq, Revenues.mk.injEq,
    Costs.mk.injEq, Prod.ext_iff]

/-- The literal violation list produced on the scenario-9 pipeline (computed
by `_check_constraints` on the mutated base and stress outputs). -/
def viols9lit : List Violation :=
  [{ constraint := "min_roe", required := 15/100, actual := -3393/16000, severity := "high" },
   { constraint := "max_perk_budget", required := 50, actual := 315/2, severity := "medium" },
   { constraint := "stress_roe_spend_down_20pct", required := 3/25, actual := -26403/16000,
     severity := "medium" },
   { constraint := "stress_roe_default_up_1_5x", required := 3/25, actual := -489/8000,
     severity := "medium" },
   { constraint := "stress_roe_cof_up_100bps", required := 3/25, actual := -789/8000,
     severity := "medium" },
   { constraint := "stress_roe_perk_usage_maxed", required := 3/25, actual := -6669/8000,
     severity := "medium" }]

theorem check_constraints9_eval :
    check_constraints base9mut stress9lit = viols9lit := by
  norm_num [check_constraints, roeViolations, lossRateViolations, perkBudgetViolations,
    stressRoeViolations, stressRoeViolation, base9mut, base9lit, stress9lit, rev9mut,
    costs9mut, viols9lit, Violation.mk.injEq]
  all_goals decide

theorem viols9_roe_count :
    (viols9lit.filter (fun v => containsStr v.constraint "roe")).length = 5 := by decide

theorem viols9_loss_count :
    (viols9lit.filter (fun v => containsStr v.constraint "loss")).length = 0 := by decide

theorem viols9_perk_count :
    (viols9lit.filter (fun v => containsStr v.constraint "perk")).length = 2 := by decide

theorem viols9_high_count :
    (viols9lit.filter (fun v => v.severity = "high")).length = 1 := by decide

/-- The literal counter-offer generated on the scenario-9 pipeline. -/
def counter9lit : TermsProposal :=
  { apr_rate := some (2099/100)
    credit_limit := some 15000
    promotional_offers := none
    adjustments := some ["APR increased by 200 bps to improve ROE",
                         "Reduced promotional benefits to control perk costs"] }

theorem generate_counter_offer9_eval :
    generate_counter_offer terms9 viols9lit base9mut = .ok counter9lit := by
  rw [generate_counter_offer, viols9_roe_count, viols9_loss_count, viols9_perk_count]
  norm_num [counterAprStep, counterLimitStep, counterPerkStep, dictGetQ, terms9,
    counter9lit, bind, Except.bind, pure, Except.pure, TermsProposal.mk.injEq]
  all_goals decide

/-- The literal decision on the scenario-9 pipeline. -/
def decision9lit : Decision :=
  { action := "counter_offer"
    reason := "Adjustments needed due to 6 constraint violations"
    violations := some viols9lit
    counter_proposal := some counter9lit
    expected_improvement := some
      { apr_increase_bps := 200, credit_limit_change := 0,
        estimated_roe_improvement := 2/5,
        estimated_profit_improvement_monthly := 1000 } }

theorem make_decision9_eval :
    make_decision base9mut stress9lit viols9lit terms9 = .ok decision9lit := by
  rw [make_decision, viols9_high_count, if_neg (by decide), if_pos (by decide)]
  rw [show (do
        let counter ← generate_counter_offer terms9 viols9lit base9mut
        pure { action := "counter_offer"
               reason := "Adjustments needed due to " ++ toString viols9lit.length
                         ++ " constraint violations"
               violations := some viols9lit
               counter_proposal := some counter
               expected_improvement := some (estimate_improvement counter terms9) } :
        Except String Decision)
      = (do
        let counter ← (Except.ok counter9lit : Except String TermsProposal)
        pure { action := "counter_offer"
               reason := "Adjustments needed due to " ++ toString viols9lit.length
                         ++ " constraint violations"
               violations := some viols9lit
               counter_proposal := some counter
               expected_improvement := some (estimate_improvement counter terms9) })
      from by rw [generate_counter_offer9_eval]]
  norm_num [estimate_improvement, counter9lit, terms9, decision9lit, bind, Except.bind,
    pure, Except.pure, Decision.mk.injEq, Improvement.mk.injEq]
  all_goals decide

/-- The literal result of the whole scenario-9 analysis. -/
def result9lit : ChallengerResult :=
  { original_proposal := some terms9
    base_economics := some base9mut
    stress_test_results := some stress9lit
    constraint_violations := some viols9lit
    decision := decision9lit
    confidence := some 95 }

theorem analyze_core9_eval :
    analyze_proposal_core terms9 risk9 spend9 = .ok result9lit := by
  rw [analyze_proposal_core]
  rw [show build_base_scenario terms9 risk9 spend9 = base9lit from base9_eval]
  rw [run_stress_tests9_eval]
  simp only [bind, Except.bind]
  rw [check_constraints9_eval, make_decision9_eval]
  simp [result9lit, pure, Except.pure]

theorem analyze9_eval : analyze_proposal terms9 risk9 spend9 = result9lit := by
  simp [analyze_proposal, analyze_core9_eval]

/-- The base scenario dict as it stands after `_run_stress_tests` has run on
it (the object the Python caller still holds). -/
def base9After : Scenario :=
  match run_stress_tests base9 with
  | .ok p => p.2
  | .error _ => base9

/-- The stress-test outputs of the scenario-9 run. -/
def stressOut9 : StressResults :=
  match run_stress_tests base9 with
  | .ok p => p.1
  | .error _ => { spend_down_20pct := base9, default_up_1_5x := base9,
                  cof_up_100bps := base9, perk_usage_maxed := base9 }

theorem base9After_eval : base9After = base9mut := by
  simp [base9After, base9_eval, run_stress_tests9_eval]

theorem stressOut9_eval : stressOut9 = stress9lit := by
  simp [stressOut9, base9_eval, run_stress_tests9_eval]

/-! ## Claim theorems (challenger agent, concrete) -/

/-- C1: FALSE of the code (code bug).  Because `_run_stress_tests` takes only
shallow copies of the base scenario, a single run mutates the base scenario's
nested `revenues` / `costs` dicts in place (interchange 90 → 72, perks
105 → 157.5), the scenario outputs carry each other's perturbations (the
`default_up_1_5x` scenario's costs show the `perk_usage_maxed` perk cost), and
re-running `_run_stress_tests` on the same base scenario dict yields different
outputs.  This theorem exhibits all three failures on the scenario-9 base. -/
theorem stress_tests_mutate_base_c1 :
    base9After.revenues.interchange = 72 ∧ base9.revenues.interchange = 90 ∧
    base9After.costs.perks = 315/2 ∧ base9.costs.perks = 105 ∧
    stressOut9.default_up_1_5x.costs.perks ≠ base9.costs.perks ∧
    run_stress_tests base9After ≠ run_stress_tests base9 := by
  refine ⟨?_, ?_, ?_, ?_, ?_, ?_⟩
  · rw [base9After_eval]; norm_num [base9mut, rev9mut]
  · rw [base9_eval]; norm_num [base9lit]
  · rw [base9After_eval]; norm_num [base9mut, costs9mut]
  · rw [base9_eval]; norm_num [base9lit]
  · rw [stressOut9_eval, base9_eval]
    norm_num [stress9lit, base9lit, costs9mut]
  · rw [base9After_eval, base9_eval, run_stress_tests9_eval, run_stress_tests9_eval2]
    intro h
    have h2 := congrArg (fun r => r.toOption.map
      (fun p => p.1.spend_down_20pct.profit_monthly)) h
    norm_num [stress9lit, stress9lit2, base9mut, base9lit, Except.toOption,
      Option.map, Option.some.injEq] at h2

/-- C2: FALSE of the code (code bug).  In the `spend_down_20pct` scenario the
monthly spend, interchange revenue and perk cost are indeed scaled by 0.8 and
`roe = profit_monthly*12 / base capital_requirement`, but `profit_monthly` is
not the consistent "total revenue minus total costs": the Python line sums
`costs.values()` *including* the stale `'total'` entry, double-counting the
cost side (-165.01875 instead of the consistent -18.20625). -/
theorem spend_down_profit_inconsistent_c2 :
    stressOut9.spend_down_20pct.monthly_spend = base9.monthly_spend * (8/10) ∧
    base9After.revenues.interchange = base9.revenues.interchange * (8/10) ∧
    base9After.costs.perks ≠ base9.costs.perks * (8/10) ∧
    stressOut9.spend_down_20pct.profit_monthly = -26403/160 ∧
    stressOut9.spend_down_20pct.roe * base9.capital_requirement
      = stressOut9.spend_down_20pct.profit_monthly * 12 ∧
    stressOut9.spend_down_20pct.profit_monthly
      ≠ (base9.revenues.interchange * (8/10) + base9.revenues.interest)
        - (base9.costs.perks * (8/10) + base9.costs.expected_loss
           + base9.costs.funding + base9.costs.operations) := by
  rw [stressOut9_eval, base9After_eval, base9_eval]
  norm_num [stress9lit, base9lit, base9mut, rev9mut, costs9mut]

/-- C3: the scenario-9 end-to-end example.  The base scenario built from
`terms_proposal={apr_rate:18.99, credit_limit:15000}`, `risk_data=
{risk_score:50}`, `spending_data={total_spending:60000}` has pd 0.07, monthly
spend 5000, average balance 4500, revolving balance 2250, interchange revenue
90.0 and interest revenue 35.60625 (within 0.01 of the quoted 35.608); its
`roe` and `loss_rate` are exactly the values the constraint checker compares
against the 0.15 / 0.08 thresholds (roe < 0.15 yields the single `min_roe`
violation carrying `actual = roe`, loss_rate ≤ 0.08 yields no `max_loss_rate`
violation), and the pipeline produces the deterministic `counter_offer`
decision. -/
theorem scenario9_example_c3 :
    base9.pd = 7/100 ∧ base9.monthly_spend = 5000 ∧ base9.avg_balance = 4500 ∧
    base9.revolving_balance = 2250 ∧ base9.revenues.interchange = 90 ∧
    base9.revenues.interest = 5697/160 ∧
    |base9.revenues.interest - 35608/1000| < 1/100 ∧
    (analyze_proposal terms9 risk9 spend9).constraint_violations = some viols9lit ∧
    base9.roe < 15/100 ∧
    viols9lit.filter (fun v => v.constraint = "min_roe")
      = [{ constraint := "min_roe", required := 15/100, actual := base9.roe,
           severity := "high" }] ∧
    ¬ (base9.loss_rate > 8/100) ∧
    viols9lit.filter (fun v => v.constraint = "max_loss_rate") = [] ∧
    (analyze_proposal terms9 risk9 spend9).decision.action = "counter_offer" := by
  rw [base9_eval, analyze9_eval]
  refine ⟨by norm_num [base9lit], by norm_num [base9lit], by norm_num [base9lit],
    by norm_num [base9lit], by norm_num [base9lit], by norm_num [base9lit],
    by norm_num [base9lit, abs_lt], by norm_num [result9lit], by norm_num [base9lit],
    ?_, by norm_num [base9lit], by decide, by norm_num [result9lit, decision9lit]⟩
  simp +decide only [viols9lit, List.filter]
  norm_num [base9lit, Violation.mk.injEq]

/-- A proposal with a zero credit limit: the stress-test ROE division by the
zero capital requirement then raises `ZeroDivisionError` inside the pipeline. -/
def termsZero : TermsProposal := { credit_limit := some 0 }

/-- C8: `analyze_proposal` never propagates an exception: for every input
triple, either the internal pipeline succeeds and its result is returned
unchanged, or the pipeline fails and the caller receives the well-formed
result whose decision is `{action: 'reject', reason: 'Analysis failed'}`.
The second conjunct shows the exception branch is genuinely reachable
(a zero credit limit makes the stress-test ROE division raise). -/
theorem analyze_proposal_never_raises_c8 :
    (∀ (t : TermsProposal) (r : RiskData) (s : SpendingData),
      (∃ res, analyze_proposal_core t r s = .ok res ∧ analyze_proposal t r s = res) ∨
      (∃ e, analyze_proposal_core t r s = .error e ∧
        analyze_proposal t r s =
          { decision := { action := "reject", reason := "Analysis failed" },
            error := some e })) ∧
    analyze_proposal termsZero {} {}
      = { decision := { action := "reject", reason := "Analysis failed" },
          error := some "ZeroDivisionError" } := by
  constructor
  · intro t r s
    cases h : analyze_proposal_core t r s with
    | ok res => exact .inl ⟨res, rfl, by simp [analyze_proposal, h]⟩
    | error e => exact .inr ⟨e, rfl, by simp [analyze_proposal, h]⟩
  · have hcore : analyze_proposal_core termsZero {} {} = .error "ZeroDivisionError" := by
      rw [analyze_proposal_core]
      norm_num [build_base_scenario, extract_pd_from_risk, termsZero, run_stress_tests,
        divPy, costsSumAll, bind, Except.bind, pure, Except.pure]
    simp [analyze_proposal, hcore]

/-! ## Claim theorems: decision safety (C10) -/

theorem check_constraints_high_le_two (base : Scenario) (stress : StressResults) :
    ((check_constraints base stress).filter (fun v => v.severity = "high")).length ≤ 2 := by
  unfold check_constraints roeViolations lossRateViolations perkBudgetViolations
    stressRoeViolations stressRoeViolation
  split_ifs <;> simp +decide [List.filter_append, List.filter]

/-- C10: `_check_constraints` can produce at most two high-severity
violations (only the `min_roe` and `max_loss_rate` checks are high severity),
so whenever `_make_decision` returns at all on the violations produced by
`_check_constraints`, its action is never `reject`. -/
theorem decision_never_reject_c10 (base : Scenario) (stress : StressResults) :
    ((check_constraints base stress).filter (fun v => v.severity = "high")).length ≤ 2 ∧
    ∀ (t : TermsProposal) (d : Decision),
      make_decision base stress (check_constraints base stress) t = .ok d →
      d.action ≠ "reject" := by
  refine ⟨check_constraints_high_le_two base stress, ?_⟩
  intro t d h
  rw [make_decision] at h
  by_cases h1 : ((check_constraints base stress).filter
      (fun v => v.severity = "high")).length = 0 ∧ (check_constraints base stress).length ≤ 1
  · rw [if_pos h1] at h
    simp only [Except.ok.injEq] at h
    rw [← h]
    simp
  · rw [if_neg h1, if_pos (check_constraints_high_le_two base stress)] at h
    cases hc : generate_counter_offer t (check_constraints base stress) base with
    | error e => rw [hc] at h; simp [bind, Except.bind] at h
    | ok c =>
      rw [hc] at h
      simp only [bind, Except.bind, pure, Except.pure, Except.ok.injEq] at h
      rw [← h]
      simp

theorem decision_never_reject_c10_witness :
    make_decision base9mut stress9lit (check_constraints base9mut stress9lit) terms9
      = .ok decision9lit ∧
    decision9lit.action ≠ "reject" := by
  have h : make_decision base9mut stress9lit (check_constraints base9mut stress9lit) terms9
      = .ok decision9lit := by
    rw [check_constraints9_eval]; exact make_decision9_eval
  exact ⟨h, (decision_never_reject_c10 base9mut stress9lit).2 terms9 decision9lit h⟩

/-! ## Claim theorems: counter-offer bounds (C5) -/

/-- A proposal whose original APR already exceeds the policy maximum and whose
original credit limit is already below $5000. -/
def termsHigh : TermsProposal := { apr_rate := some 35, credit_limit := some 3000 }

/-- C5 counterexample: with an empty violations list, `_generate_counter_offer`
passes the original APR (35 > 29.99) and credit limit (3000 < 5000) through
unchanged, so the claimed bounds do not hold for every violations list. -/
theorem counter_offer_bounds_cex_c5 :
    generate_counter_offer termsHigh [] base9
      = .ok { apr_rate := some 35, credit_limit := some 3000, adjustments := some [] } ∧
    ¬ ((35 : ℚ) ≤ 2999/100) ∧ ¬ ((5000 : ℚ) ≤ 3000) := by
  refine ⟨?_, by norm_num, by norm_num⟩
  norm_num [generate_counter_offer, counterAprStep, counterLimitStep, counterPerkStep,
    termsHigh, List.filter, bind, Except.bind, pure, Except.pure, TermsProposal.mk.injEq]

theorem counterAprStep_ok (o : TermsProposal) (n : ℕ) (p : TermsProposal × List String)
    (h : counterAprStep o n = .ok p) :
    p.1.credit_limit = o.credit_limit ∧ p.1.promotional_offers = o.promotional_offers ∧
    (0 < n → ∃ a, p.1.apr_rate = some a ∧ a ≤ 2999/100) ∧ (n = 0 → p.1 = o) := by
  rw [counterAprStep] at h
  split_ifs at h with hn
  · cases ho : o.apr_rate with
    | none => rw [ho] at h; simp [dictGetQ, bind, Except.bind] at h
    | some apr =>
      rw [ho] at h
      simp only [dictGetQ, bind, Except.bind, pure, Except.pure, Except.ok.injEq] at h
      rw [← h]
      refine ⟨rfl, rfl, fun _ => ⟨_, rfl, min_le_left _ _⟩, fun h0 => ?_⟩
      omega
  · simp only [pure, Except.pure, Except.ok.injEq] at h
    rw [← h]
    exact ⟨rfl, rfl, fun hlt => absurd hlt hn, fun _ => rfl⟩

theorem counterLimitStep_ok (c o : TermsProposal) (adjust : List String) (n : ℕ)
    (p : TermsProposal × List String) (h : counterLimitStep c o adjust n = .ok p) :
    p.1.apr_rate = c.apr_rate ∧ p.1.promotional_offers = c.promotional_offers ∧
    (0 < n → ∃ l, p.1.credit_limit = some l ∧ 5000 ≤ l) ∧ (n = 0 → p.1 = c) := by
  rw [counterLimitStep] at h
  split_ifs at h with hn
  · cases ho : o.credit_limit with
    | none => rw [ho] at h; simp [dictGetQ, bind, Except.bind] at h
    | some lim =>
      rw [ho] at h
      simp only [dictGetQ, bind, Except.bind, pure, Except.pure, Except.ok.injEq] at h
      rw [← h]
      refine ⟨rfl, rfl, fun _ => ⟨_, rfl, le_max_left _ _⟩, fun h0 => ?_⟩
      omega
  · simp only [pure, Except.pure, Except.ok.injEq] at h
    rw [← h]
    exact ⟨rfl, rfl, fun hlt => absurd hlt hn, fun _ => rfl⟩

theorem counterPerkStep_fields (c : TermsProposal) (adjust : List String) (n : ℕ) :
    (counterPerkStep c adjust n).1.apr_rate = c.apr_rate ∧
    (counterPerkStep c adjust n).1.credit_limit = c.credit_limit := by
  rw [counterPerkStep]
  split_ifs
  · cases c.promotional_offers <;> simp
  · exact ⟨rfl, rfl⟩

/-- C5 amended: whenever the violations list contains an ROE-related violation
the generated APR is `min(29.99, ...) ≤ 29.99`, and whenever it contains a
loss-related violation the generated credit limit is `max(5000, ...) ≥ 5000`;
absent the corresponding violation kind, the original APR / credit limit is
passed through unchanged, so the claimed bounds only hold when the original
proposal already satisfied them. -/
theorem counter_offer_bounds_amended_c5 (original : TermsProposal)
    (violations : List Violation) (base : Scenario) (c : TermsProposal)
    (h : generate_counter_offer original violations base = .ok c) :
    (0 < (violations.filter (fun v => containsStr v.constraint "roe")).length →
      ∃ a, c.apr_rate = some a ∧ a ≤ 2999/100) ∧
    (0 < (violations.filter (fun v => containsStr v.constraint "loss")).length →
      ∃ l, c.credit_limit = some l ∧ 5000 ≤ l) ∧
    ((violations.filter (fun v => containsStr v.constraint "roe")).length = 0 →
      c.apr_rate = original.apr_rate) ∧
    ((violations.filter (fun v => containsStr v.constraint "loss")).length = 0 →
      c.credit_limit = original.credit_limit) := by
  rw [generate_counter_offer] at h
  cases h1 : counterAprStep original
      (violations.filter (fun v => containsStr v.constraint "roe")).length with
  | error e => rw [h1] at h; simp [bind, Except.bind] at h
  | ok p1 =>
    obtain ⟨c1, a1⟩ := p1
    rw [h1] at h
    simp only [bind, Except.bind] at h
    cases h2 : counterLimitStep c1 original a1
        (violations.filter (fun v => containsStr v.constraint "loss")).length with
    | error e => rw [h2] at h; simp at h
    | ok p2 =>
      obtain ⟨c2, a2⟩ := p2
      rw [h2] at h
      simp only at h
      rcases hq : counterPerkStep c2 a2
          (violations.filter (fun v => containsStr v.constraint "perk")).length with ⟨c3, a3⟩
      rw [hq] at h
      simp only [pure, Except.pure, Except.ok.injEq] at h
      obtain ⟨hl1, hl2, hl3, hl4⟩ := counterAprStep_ok _ _ _ h1
      obtain ⟨hm1, hm2, hm3, hm4⟩ := counterLimitStep_ok _ _ _ _ _ h2
      have hp := counterPerkStep_fields c2 a2
        (violations.filter (fun v => containsStr v.constraint "perk")).length
      rw [hq] at hp
      obtain ⟨hp1, hp2⟩ := hp
      dsimp only at hl1 hl2 hl3 hl4 hm1 hm2 hm3 hm4 hp1 hp2
      have hcapr : c.apr_rate = c3.apr_rate := by rw [← h]
      have hclim : c.credit_limit = c3.credit_limit := by rw [← h]
      refine ⟨fun hroe => ?_, fun hloss => ?_, fun hroe0 => ?_, fun hloss0 => ?_⟩
      · obtain ⟨a, ha, hale⟩ := hl3 hroe
        exact ⟨a, by rw [hcapr, hp1, hm1, ha], hale⟩
      · obtain ⟨l, hl, hlle⟩ := hm3 hloss
        exact ⟨l, by rw [hclim, hp2, hl], hlle⟩
      · rw [hcapr, hp1, hm1, hl4 hroe0]
      · rw [hclim, hp2, hm4 hloss0, hl1]

theorem counter_offer_bounds_amended_c5_witness :
    0 < (viols9lit.filter (fun v => containsStr v.constraint "roe")).length ∧
    (∃ a, counter9lit.apr_rate = some a ∧ a ≤ 2999/100) := by
  exact ⟨by decide,
    (counter_offer_bounds_amended_c5 terms9 viols9lit base9mut counter9lit
      generate_counter_offer9_eval).1 (by decide)⟩

/-! ## Claim theorems: risk score bounds (C4) -/

theorem pytrunc_mono {a b : ℚ} (h : a ≤ b) : pytrunc a ≤ pytrunc b := by
  unfold pytrunc
  split_ifs with h1 h2 h3
  · exact Int.floor_le_floor h
  · linarith
  · have hc : ⌈a⌉ ≤ 0 := Int.ceil_le.mpr (by push_cast; linarith)
    have hf : 0 ≤ ⌊b⌋ := Int.floor_nonneg.mpr h3
    omega
  · exact Int.ceil_le_ceil h

theorem pytrunc_bounds {T : ℚ} (h1 : 302 ≤ T) (h2 : T ≤ 80725/100) :
    300 ≤ pytrunc T ∧ pytrunc T ≤ 850 := by
  rw [pytrunc, if_pos (by linarith : (0:ℚ) ≤ T)]
  constructor
  · rw [Int.le_floor]
    push_cast
    linarith
  · have hfl : (⌊T⌋ : ℚ) ≤ T := Int.floor_le _
    have h851 : (⌊T⌋ : ℚ) < 851 := by linarith
    have : ⌊T⌋ < 851 := by exact_mod_cast h851
    omega

theorem incomeStabilityScore_bounds {f : FinancialFeatures}
    (h0 : 0 ≤ f.income_stability) (_h1 : f.income_stability ≤ 1) :
    0 ≤ incomeStabilityScore f ∧ incomeStabilityScore f ≤ 850 :=
  ⟨le_min (by norm_num) (by nlinarith), min_le_left _ _⟩

theorem cashFlowScore_bounds (f : FinancialFeatures) :
    300 ≤ cashFlowScore f ∧ cashFlowScore f ≤ 850 := by
  unfold cashFlowScore
  split_ifs with h
  · constructor
    · refine le_min (by norm_num) ?_
      have : 0 ≤ f.monthly_net_inflow / 2000 * 400 := by positivity
      linarith
    · exact min_le_left _ _
  · norm_num

theorem balanceManagementScore_bounds (f : FinancialFeatures) :
    300 ≤ balanceManagementScore f ∧ balanceManagementScore f ≤ 750 := by
  unfold balanceManagementScore
  refine ⟨le_max_left _ _, max_le (by norm_num) ?_⟩
  have h50 : (0:ℚ) ≤ (f.nsf_events : ℚ) * 50 := by positivity
  split_ifs <;> linarith

theorem paymentConsistencyScore_bounds (f : FinancialFeatures)
    (h : f.payment_consistency = 8/10 ∨ f.payment_consistency = 9/10) :
    680 ≤ paymentConsistencyScore f ∧ paymentConsistencyScore f ≤ 765 := by
  rcases h with h | h <;> rw [paymentConsistencyScore, h] <;> norm_num

theorem expenseRatioScore_bounds (f : FinancialFeatures) :
    400 ≤ expenseRatioScore f ∧ expenseRatioScore f ≤ 800 := by
  unfold expenseRatioScore
  split_ifs <;> norm_num

/-- C4: for every features record in the valid domain — income stability in
[0,1] and payment consistency 0.8 or 0.9, which is exactly what
`extract_features` (for any nonnegative stdev primitive) and
`_default_features` produce — `calculate_risk_score` is an integer between
300 and 850. -/
theorem score_bounds_c4 :
    (∀ f : FinancialFeatures,
      0 ≤ f.income_stability → f.income_stability ≤ 1 →
      (f.payment_consistency = 8/10 ∨ f.payment_consistency = 9/10) →
      300 ≤ calculate_risk_score f ∧ calculate_risk_score f ≤ 850) ∧
    (∀ (sd : List ℚ → ℚ) (txs : List Tx) (b : Option ℚ),
      (∀ xs, 0 ≤ sd xs) →
      0 ≤ (extract_features sd txs b).income_stability ∧
      (extract_features sd txs b).income_stability ≤ 1 ∧
      ((extract_features sd txs b).payment_consistency = 8/10 ∨
       (extract_features sd txs b).payment_consistency = 9/10)) := by
  constructor
  · intro f h0 h1 hpc
    obtain ⟨i1, i2⟩ := incomeStabilityScore_bounds h0 h1
    obtain ⟨c1, c2⟩ := cashFlowScore_bounds f
    obtain ⟨b1, b2⟩ := balanceManagementScore_bounds f
    obtain ⟨p1, p2⟩ := paymentConsistencyScore_bounds f hpc
    obtain ⟨e1, e2⟩ := expenseRatioScore_bounds f
    rw [calculate_risk_score]
    exact pytrunc_bounds (by linarith) (by linarith)
  · intro sd txs b hsd
    by_cases htxs : txs = []
    · subst htxs
      refine ⟨by norm_num [extract_features, default_features],
        by norm_num [extract_features, default_features], Or.inr ?_⟩
      norm_num [extract_features, default_features]
    · rw [extract_features, if_neg htxs]
      refine ⟨?_, ?_, ?_⟩
      · exact le_max_left _ _
      · dsimp only
        rw [incomeStabilityOf]
        refine max_le (by norm_num) ?_
        have hvol : 0 ≤ inflowVolatilityOf sd txs := by
          rw [inflowVolatilityOf]
          split_ifs
          exacts [hsd _, le_refl 0]
        have hden : (0:ℚ) < max (avgMonthlyInflowOf txs) 1 :=
          lt_of_lt_of_le one_pos (le_max_right _ _)
        have : 0 ≤ inflowVolatilityOf sd txs / max (avgMonthlyInflowOf txs) 1 :=
          div_nonneg hvol hden.le
        linarith
      · dsimp only
        rw [paymentConsistencyOf]
        split_ifs
        exacts [Or.inl rfl, Or.inr rfl]

theorem score_bounds_c4_witness :
    (0 ≤ default_features.income_stability ∧ default_features.income_stability ≤ 1 ∧
      (default_features.payment_consistency = 8/10 ∨
       default_features.payment_consistency = 9/10)) ∧
    300 ≤ calculate_risk_score default_features ∧
    calculate_risk_score default_features ≤ 850 :=
  ⟨⟨by norm_num [default_features], by norm_num [default_features],
     Or.inr (by norm_num [default_features])⟩,
   score_bounds_c4.1 default_features (by norm_num [default_features])
     (by norm_num [default_features]) (Or.inr (by norm_num [default_features]))⟩

/-! ## Claim theorems: NSF monotonicity (C9) -/

theorem max_floor_shift (y : ℚ) : max 300 (y - 50) = max 300 (max 300 y - 50) := by
  rcases le_total y 300 with h | h
  · rw [max_eq_left h, max_eq_left (by linarith : y - 50 ≤ 300),
      max_eq_left (by norm_num : (300:ℚ) - 50 ≤ 300)]
  · rw [max_eq_right h]

/-- C9: one more NSF event lowers the balance-management sub-score by exactly
50 down to the 300 floor (so it never increases), and consequently the total
risk score never increases either. -/
theorem nsf_penalty_monotone_c9 (f : FinancialFeatures) :
    balanceManagementScore { f with nsf_events := f.nsf_events + 1 }
      = max 300 (balanceManagementScore f - 50) ∧
    balanceManagementScore { f with nsf_events := f.nsf_events + 1 }
      ≤ balanceManagementScore f ∧
    calculate_risk_score { f with nsf_events := f.nsf_events + 1 }
      ≤ calculate_risk_score f := by
  have hband : balanceManagementScore { f with nsf_events := f.nsf_events + 1 }
      = max 300 (balanceManagementScore f - 50) := by
    rw [balanceManagementScore, balanceManagementScore]
    dsimp only
    rw [show ((f.nsf_events + 1 : ℕ) : ℚ) = (f.nsf_events : ℚ) + 1 by push_cast; ring]
    rw [show (if f.avg_balance > 1000 then (750:ℚ)
          else if f.avg_balance > 500 then 650
          else if f.avg_balance > 100 then 550 else 400)
          - ((f.nsf_events : ℚ) + 1) * 50
        = ((if f.avg_balance > 1000 then (750:ℚ)
          else if f.avg_balance > 500 then 650
          else if f.avg_balance > 100 then 550 else 400)
          - (f.nsf_events : ℚ) * 50) - 50 by ring]
    exact max_floor_shift _
  have hle : balanceManagementScore { f with nsf_events := f.nsf_events + 1 }
      ≤ balanceManagementScore f := by
    rw [hband]
    exact max_le (balanceManagementScore_bounds f).1 (by linarith)
  refine ⟨hband, hle, ?_⟩
  rw [calculate_risk_score, calculate_risk_score]
  apply pytrunc_mono
  have h1 : incomeStabilityScore { f with nsf_events := f.nsf_events + 1 }
      = incomeStabilityScore f := rfl
  have h2 : cashFlowScore { f with nsf_events := f.nsf_events + 1 }
      = cashFlowScore f := rfl
  have h3 : paymentConsistencyScore { f with nsf_events := f.nsf_events + 1 }
      = paymentConsistencyScore f := rfl
  have h4 : expenseRatioScore { f with nsf_events := f.nsf_events + 1 }
      = expenseRatioScore f := rfl
  rw [h1, h2, h3, h4]
  linarith

/-! ## Claim theorems: confidence (C6) and expense ratio (C7) -/

/-- A stand-in for the abstract `statistics.stdev` primitive; the concrete
histories below have a single monthly bucket, so `extract_features` never
consults it (`inflow_volatility` takes the `else 0` branch). -/
def sdZero : List ℚ → ℚ := fun _ => 0

/-- A single small deposit against a deeply negative current balance. -/
def tx6 : Tx := { date := "2024-01-15T00:00:00Z", amount := 1, description := "X" }

/-- C6 counterexample: for the one-transaction history `tx6` with current
balance -10000 the confidence is -2499.54, far below 0, so the claimed [0,1]
range is false (the `0.25*(1-balance_volatility)` term is unbounded below when
`min_balance` is very negative).  The first conjunct shows the history has a
single monthly bucket, so the abstract stdev primitive is never consulted. -/
theorem confidence_below_zero_cex_c6 :
    (monthlyInflows (sortByDate [tx6])).length = 1 ∧
    analyzeRiskConfidence sdZero [tx6] (some (-10000)) = -124977/50 ∧
    ¬ (0 ≤ analyzeRiskConfidence sdZero [tx6] (some (-10000))) := by
  refine ⟨by decide, ?_, ?_⟩ <;>
    · simp +decide [analyzeRiskConfidence, extract_features, confidenceOf,
        balanceVolatility, incomeStabilityOf, inflowVolatilityOf, avgMonthlyInflowOf,
        monthlyInflows, sortByDate, insertByDate, bumpKey, monthKey, tx6, listMean,
        listMin, balanceHistoryOf, estimateDailyBalances, expenseRatioOf,
        totalMonthlyExpensesOf, recurringOf, identifyRecurringExpenses, groupAppend,
        paymentConsistencyOf, sdZero]
      norm_num

/-- C6 amended: the confidence produced by `analyze_risk` is exactly the
weighted blend `0.3*income_stability + 0.25*(1-balance_volatility)
+ 0.25*(1-min(1,expense_ratio)) + 0.2*payment_consistency` capped at 0.95 —
hence never exceeds 0.95 — but it is not bounded below by 0 (a sufficiently
negative `min_balance` drives it negative). -/
theorem confidence_capped_amended_c6 (sd : List ℚ → ℚ) (txs : List Tx)
    (b : Option ℚ) :
    analyzeRiskConfidence sd txs b
      = min (95/100)
          ((extract_features sd txs b).income_stability * (3/10)
            + (1 - balanceVolatility (extract_features sd txs b)) * (25/100)
            + (1 - min 1 (extract_features sd txs b).expense_ratio) * (25/100)
            + (extract_features sd txs b).payment_consistency * (2/10)) ∧
    analyzeRiskConfidence sd txs b ≤ 95/100 :=
  ⟨rfl, min_le_left _ _⟩

/-- Three recurring RENT payments and no inflow: the mean monthly inflow is
negative, so the code's `else 1.0` branch fires. -/
def txs7 : List Tx :=
  [{ date := "2024-01-01T00:00:00Z", amount := -500, description := "RENT" },
   { date := "2024-01-05T00:00:00Z", amount := -500, description := "RENT" },
   { date := "2024-01-09T00:00:00Z", amount := -500, description := "RENT" }]

/-- C7 counterexample: on the nonempty history `txs7` the mean monthly inflow
is -1500 ≤ 0 and the recurring-expense buckets sum to 500, so the claimed
uniform formula would give `500 / max(-1500, 1) = 500`, but `extract_features`
returns the constant 1.0 — the formula does not apply uniformly to
non-positive mean inflows. -/
theorem expense_ratio_cex_c7 :
    txs7 ≠ [] ∧
    avgMonthlyInflowOf txs7 = -1500 ∧
    totalMonthlyExpensesOf txs7 = 500 ∧
    totalMonthlyExpensesOf txs7 / max (avgMonthlyInflowOf txs7) 1 = 500 ∧
    (extract_features sdZero txs7 (some 0)).expense_ratio = 1 ∧
    (1 : ℚ) ≠ 500 := by
  refine ⟨by decide, ?_, ?_, ?_, ?_, by norm_num⟩ <;>
    · simp +decide [extract_features, expenseRatioOf, avgMonthlyInflowOf,
        totalMonthlyExpensesOf, recurringOf, identifyRecurringExpenses, monthlyInflows,
        sortByDate, insertByDate, bumpKey, monthKey, txs7, listMean, charListLe,
        upperStr, containsStr, setKey, getKeyD, groupAppend]
      norm_num

/-- C7 amended: for every non-empty transaction history the expense ratio is
`sum(bucket values) / max(mean_inflow, 1)` whenever the mean monthly inflow is
positive; for zero or negative mean inflow the code returns the constant 1.0
instead of applying that formula. -/
theorem expense_ratio_amended_c7 (sd : List ℚ → ℚ) (txs : List Tx) (b : Option ℚ)
    (h : txs ≠ []) :
    (extract_features sd txs b).expense_ratio = expenseRatioOf txs ∧
    (0 < avgMonthlyInflowOf txs →
      expenseRatioOf txs
        = totalMonthlyExpensesOf txs / max (avgMonthlyInflowOf txs) 1) ∧
    (¬ 0 < avgMonthlyInflowOf txs → expenseRatioOf txs = 1) := by
  refine ⟨?_, fun hp => ?_, fun hp => ?_⟩
  · rw [extract_features, if_neg h]
  · rw [expenseRatioOf, if_pos hp]
  · rw [expenseRatioOf, if_neg hp]

theorem expense_ratio_amended_c7_witness :
    txs7 ≠ [] ∧
    (extract_features sdZero txs7 (some 0)).expense_ratio = expenseRatioOf txs7 :=
  ⟨by decide, (expense_ratio_amended_c7 sdZero txs7 (some 0) (by decide)).1⟩

end BoA
